import Mathlib

/-!
Verification development for `src/modeling_siglip.py`, a partial SigLIP-style
vision-transformer encoder written against PyTorch.

Shallow embedding conventions:
* Machine shapes and sizes are `Nat`; Python integer floor division `//` is
  `Nat` division `/`.
* Real-valued scalars are modelled over `ℚ` (floating point is not modelled;
  all numeric components the claims quantify over are abstract functions, so
  the carrier only needs to be a concrete ordered field with decidable
  equality).
* A tensor of rank `k` is a total function from `k` `Nat` indices to `ℚ`;
  shapes are implicit (out-of-range reads are unconstrained and every proved
  statement only inspects in-range indices).
* Python name resolution and keyword-argument passing are modelled
  explicitly, because several claims are about `NameError` / `TypeError`
  behaviour of the file: `moduleGlobals` lists exactly the names bound at
  module level by `src/modeling_siglip.py` (its `import` lines and its six
  `class` statements), and fallible constructor / call sequences return
  `Except PyError`.
-/

set_option autoImplicit false

/-- Python exceptions the modelled code can raise. -/
inductive PyError where
  | nameError (name : String)
  | typeError (msg : String)
  deriving DecidableEq, Repr

/-- Names bound at module level of `src/modeling_siglip.py`: the two `import`
lines bind `torch`, `nn`, `Optional`, `Tuple` (lines 1-3), and the six `class`
statements bind the class names (lines 5, 35, 83, 97, 121, 143). Neither
`SiglipAttention` nor `SiglipEncoder` is ever bound. -/
def moduleGlobals : List String :=
  ["torch", "nn", "Optional", "Tuple",
   "SiglipVisionConfig", "SiglipVisionEmbeddings", "SiglipMLP",
   "SiglipEncoderLayer", "SiglipVisionTransformer", "SiglipVisionModel"]

/-- Python module-global name resolution: a bare name that is not bound in the
module globals raises `NameError` at the point of use. -/
def lookupGlobal (n : String) : Except PyError Unit :=
  if moduleGlobals.contains n then Except.ok () else Except.error (PyError.nameError n)

/-- `SiglipVisionConfig.__init__` (lines 5-32): stores the hyperparameters. -/
structure SiglipVisionConfig where
  hidden_size : Nat
  intermediate_size : Nat
  num_hidden_layers : Nat
  num_attention_heads : Nat
  num_channels : Nat
  image_size : Nat
  patch_size : Nat
  layer_norm_eps : ℚ
  attention_dropout : ℚ
  num_image_tokens : Option Nat
  deriving DecidableEq, Repr

/-- The default argument values of `SiglipVisionConfig.__init__`
(lines 7-19). -/
def SiglipVisionConfig.default : SiglipVisionConfig :=
  { hidden_size := 768
    intermediate_size := 3072
    num_hidden_layers := 12
    num_attention_heads := 12
    num_channels := 3
    image_size := 224
    patch_size := 16
    layer_norm_eps := 1 / 1000000
    attention_dropout := 0
    num_image_tokens := none }

/-- State built by `SiglipVisionEmbeddings.__init__` (lines 37-63): the
hyperparameters of the `nn.Conv2d` patch projection and the `nn.Embedding`
position table, the derived patch counts, and the contents of the registered
`position_ids` buffer (a tensor of shape `(1, num_positions)` modelled as a
list of rows). -/
structure SiglipVisionEmbeddings where
  embed_dim : Nat
  image_size : Nat
  patch_size : Nat
  conv_in_channels : Nat
  conv_out_channels : Nat
  conv_kernel_size : Nat
  conv_stride : Nat
  num_patches : Nat
  num_positions : Nat
  position_embedding_num_embeddings : Nat
  position_embedding_dim : Nat
  position_ids : List (List Nat)
  deriving DecidableEq, Repr

/-- `SiglipVisionEmbeddings.__init__` (lines 37-63), transcribed line by line:
`embed_dim = config.hidden_size`; the `nn.Conv2d` takes `num_channels` in,
`embed_dim` out, `kernel_size=patch_size`, `stride=patch_size` (lines 48-54);
`num_patches = (image_size // patch_size) ** 2` (line 56);
`num_positions = num_patches` (line 57);
`position_embedding = nn.Embedding(num_positions, embed_dim)` (line 58);
`position_ids = torch.arange(num_positions).expand((1, -1))` (lines 59-63). -/
def SiglipVisionEmbeddings.init (config : SiglipVisionConfig) : SiglipVisionEmbeddings :=
  let embed_dim := config.hidden_size
  let image_size := config.image_size
  let patch_size := config.patch_size
  let num_patches := (image_size / patch_size) ^ 2
  let num_positions := num_patches
  { embed_dim := embed_dim
    image_size := image_size
    patch_size := patch_size
    conv_in_channels := config.num_channels
    conv_out_channels := embed_dim
    conv_kernel_size := patch_size
    conv_stride := patch_size
    num_patches := num_patches
    num_positions := num_positions
    position_embedding_num_embeddings := num_positions
    position_embedding_dim := embed_dim
    position_ids := [List.range num_positions] }

/-- Rank-4 tensor `[dim0, dim1, dim2, dim3] → ℚ` (e.g. a batch of images
`[Batch, Channels, Height, Width]` or a convolution output
`[Batch, Embed_Dim, Num_Patches_H, Num_Patches_W]`). -/
def Tensor4 : Type := Nat → Nat → Nat → Nat → ℚ

/-- Rank-3 tensor `[dim0, dim1, dim2] → ℚ`. -/
def Tensor3 : Type := Nat → Nat → Nat → ℚ

/-- Rank-2 tensor, used for an `nn.Embedding` weight table
`[num_embeddings, embedding_dim] → ℚ`. -/
def Tensor2 : Type := Nat → Nat → ℚ

/-- `Tensor.flatten(2)` on a rank-4 tensor of inner shape
`(H, W)`: dims 2 and 3 are merged row-major into one dim of size `H * W`,
so entry `p` of the merged dim is entry `(p / W, p % W)` of the original.
`w` is the size of dim 3 of the input. -/
def Tensor4.flatten2 (w : Nat) (t : Tensor4) : Tensor3 :=
  fun b e p => t b e (p / w) (p % w)

/-- `Tensor.transpose(1, 2)` on a rank-3 tensor: swaps dims 1 and 2. -/
def Tensor3.transpose12 (t : Tensor3) : Tensor3 :=
  fun b p e => t b e p

/-- `nn.Embedding` applied to an index tensor of shape `(1, N)` (the
`position_ids` buffer, modelled as a list of rows): the result has one more
trailing dim than the indices, `result[r][p][e] = weight[ids[r][p]][e]`. -/
def embedLookup (weight : Tensor2) (ids : List (List Nat)) : Tensor3 :=
  fun r p e => weight ((ids.getD r []).getD p 0) e

/-- Elementwise `+` of a `[B, N, E]` tensor and a `[1, N, E]` tensor:
PyTorch broadcasting repeats the size-1 dim 0 of the second operand across
the batch. -/
def addBroadcast0 (a : Tensor3) (b : Tensor3) : Tensor3 :=
  fun i p e => a i p e + b 0 p e

/-- `SiglipVisionEmbeddings.forward` (lines 65-81), transcribed line by line.
The `nn.Conv2d` patch projection is a framework primitive, passed in as the
abstract function `patchConv`; `w` is the size of the last dim of its output
(`Num_Patches_W = width // patch_size`); `weight` is the learned
`position_embedding` table. Body:
`patch_embed = self.patch_embedding(pixel_values)` (line 71);
`embeddings = patch_embed.flatten(2)` (line 76);
`embeddings = embeddings.transpose(1, 2)` (line 78);
`embeddings = embeddings + self.position_embedding(self.position_ids)`
(line 80, broadcasting over the batch dim). -/
def SiglipVisionEmbeddings.fwd (st : SiglipVisionEmbeddings) (weight : Tensor2)
    (patchConv : Tensor4 → Tensor4) (w : Nat) (pixel_values : Tensor4) : Tensor3 :=
  let patch_embed := patchConv pixel_values
  let embeddings := patch_embed.flatten2 w
  let embeddings := embeddings.transpose12
  let embeddings := addBroadcast0 embeddings (embedLookup weight st.position_ids)
  embeddings

/-- Layer dimensions set up by `SiglipMLP.__init__` (lines 84-88):
`fc1 = nn.Linear(hidden_size, intermediate_size)`,
`fc2 = nn.Linear(intermediate_size, hidden_size)`. -/
structure SiglipMLP where
  fc1_in_features : Nat
  fc1_out_features : Nat
  fc2_in_features : Nat
  fc2_out_features : Nat
  deriving DecidableEq, Repr

/-- `SiglipMLP.__init__` (lines 84-88). -/
def SiglipMLP.init (config : SiglipVisionConfig) : SiglipMLP :=
  { fc1_in_features := config.hidden_size
    fc1_out_features := config.intermediate_size
    fc2_in_features := config.intermediate_size
    fc2_out_features := config.hidden_size }

/-- `SiglipMLP.forward` (lines 90-94), transcribed line by line over an
arbitrary tensor type `T`. The framework primitives are abstract: `fc1` and
`fc2` are the two `nn.Linear` layers and `gelu x s` is
`nn.functional.gelu(x, approximate=s)`. Body:
`hidden_states = self.fc1(hidden_states)` (line 91);
`hidden_states = nn.functional.gelu(hidden_states, approximate="tanh")`
(line 92);
`hidden_states = self.fc2(hidden_states)` (line 93). -/
def SiglipMLP.fwd {T : Type} (fc1 fc2 : T → T) (gelu : T → String → T)
    (hidden_states : T) : T :=
  let hidden_states := fc1 hidden_states
  let hidden_states := gelu hidden_states "tanh"
  let hidden_states := fc2 hidden_states
  hidden_states

/-- `SiglipEncoderLayer.__init__` (lines 98-105) as a fallible constructor:
line 102 evaluates the bare name `SiglipAttention` against the module
globals before anything else can happen in that statement; line 104
evaluates `SiglipMLP`. (`nn.LayerNorm` on lines 103 and 105 is an attribute
of the imported `nn` module and always resolves.) -/
def SiglipEncoderLayer.construct (_config : SiglipVisionConfig) : Except PyError Unit := do
  lookupGlobal "SiglipAttention"
  lookupGlobal "SiglipMLP"
  Except.ok ()

/-- `SiglipEncoderLayer.forward` (lines 107-119), transcribed line by line
over an arbitrary tensor type `T` with `+`. The sub-layers are abstract
functions; `self_attention` returns a pair whose second component is
discarded (`hidden_states, _ = self.self_attention(...)`, line 113). Body:
`residual = hidden_states` (line 111);
`hidden_states = self.layer_norm1(hidden_states)` (line 112);
`hidden_states, _ = self.self_attention(hidden_states=hidden_states)`
(line 113);
`hidden_states = residual + hidden_states` (line 114);
`residual = hidden_states` (line 115);
`hidden_states = self.layer_norm2(hidden_states)` (line 116);
`hidden_states = self.mlp(hidden_states)` (line 117);
`hidden_states = residual + hidden_states` (line 118). -/
def SiglipEncoderLayer.fwd {T : Type} [Add T] (layer_norm1 layer_norm2 : T → T)
    (self_attention : T → T × Unit) (mlp : T → T) (hidden_states : T) : T :=
  let residual := hidden_states
  let hidden_states := layer_norm1 hidden_states
  let hidden_states := (self_attention hidden_states).1
  let hidden_states := residual + hidden_states
  let residual := hidden_states
  let hidden_states := layer_norm2 hidden_states
  let hidden_states := mlp hidden_states
  let hidden_states := residual + hidden_states
  hidden_states

/-- `SiglipVisionTransformer.__init__` (lines 123-133) as a fallible
constructor: line 131 evaluates `SiglipVisionEmbeddings` (bound, and its
`__init__` only uses `nn` attributes, so it succeeds); line 132 evaluates the
bare name `SiglipEncoder`. -/
def SiglipVisionTransformer.construct (_config : SiglipVisionConfig) : Except PyError Unit := do
  lookupGlobal "SiglipVisionEmbeddings"
  lookupGlobal "SiglipEncoder"
  Except.ok ()

/-- `SiglipVisionModel.__init__` (lines 145-148) as a fallible constructor:
line 148 evaluates the bare name `SiglipVisionTransformer` and then runs its
`__init__`. -/
def SiglipVisionModel.construct (config : SiglipVisionConfig) : Except PyError Unit := do
  lookupGlobal "SiglipVisionTransformer"
  SiglipVisionTransformer.construct config

/-- The positional and keyword parameters (after `self`) of
`SiglipVisionEmbeddings.forward` (line 65): just `pixel_values`. -/
def SiglipVisionEmbeddings.forwardParams : List String := ["pixel_values"]

/-- The parameter (after `self`) of `nn.LayerNorm.forward`: `input`. -/
def layerNormForwardParams : List String := ["input"]

/-- Parameter lists of the `forward` methods of the sub-modules that
`SiglipVisionTransformer.forward` calls through `nn.Module.__call__`. A name
with no known `forward` accepts no keyword at all. -/
def forwardParamsOf (target : String) : List String :=
  if target = "embeddings" then SiglipVisionEmbeddings.forwardParams
  else if target = "post_layernorm" then layerNormForwardParams
  else []

/-- Python keyword-argument binding: calling a function whose parameters are
`params` with keyword arguments `kwargs` raises `TypeError` at the first
keyword that is not a parameter name. -/
def checkKwargs (params kwargs : List String) : Except PyError Unit :=
  match kwargs.find? (fun k => !params.contains k) with
  | some k =>
      Except.error (PyError.typeError ("forward() got an unexpected keyword argument " ++ k))
  | none => Except.ok ()

/-- The sub-module calls made, in order, by the body of
`SiglipVisionTransformer.forward` (lines 135-141), each with the list of
keyword-argument names it passes:
line 137 `self.embeddings(pixel_values)` (positional, no keywords);
line 138 `self.embeddings(input_embeds=hidden_states)`;
line 139 `self.post_layernorm(last_hidden_state)` (positional). -/
def SiglipVisionTransformer.forwardCalls : List (String × List String) :=
  [("embeddings", []), ("embeddings", ["input_embeds"]), ("post_layernorm", [])]

/-- Runs a sequence of sub-module calls left to right, binding each call's
keywords against the callee's parameters. Returns the list of targets whose
bodies were actually entered, paired with the first raised error, if any;
once a call raises, no later call runs. -/
def runCallsTrace : List (String × List String) → List String × Option PyError
  | [] => ([], none)
  | (target, kwargs) :: rest =>
      match checkKwargs (forwardParamsOf target) kwargs with
      | Except.error e => ([], some e)
      | Except.ok _ =>
          let (ts, err) := runCallsTrace rest
          (target :: ts, err)

/-- The method names defined in the body of `class SiglipVisionModel`
(lines 143-152): `__init__` and the misspelled `forwrd`. -/
def SiglipVisionModel.methodNames : List String := ["__init__", "forwrd"]

/-- Python attribute lookup on a class body: returns the method if the class
defines one under that name, otherwise `none` (resolution would fall through
to the base class `nn.Module`). -/
def classAttrLookup (methods : List String) (n : String) : Option String :=
  if methods.contains n then some n else none

/-- C1: the claim says `SiglipVisionTransformer.forward` applies the patch
embedding, then the stack of encoder layers, then the final layer
normalization. On the code this fails: the body (lines 135-141) never calls
`self.encoder` at all; after the patch embedding it re-invokes
`self.embeddings` with the keyword `input_embeds`, which raises `TypeError`,
so only the first embeddings call ever runs and neither the encoder stack nor
`post_layernorm` is reached. This theorem evaluates the modelled body: no
call in the body targets the encoder, and running the body completes only the
first embeddings call before raising. -/
theorem siglip_vision_transformer_forward_skips_encoder :
    "encoder" ∉ SiglipVisionTransformer.forwardCalls.map Prod.fst ∧
    runCallsTrace SiglipVisionTransformer.forwardCalls =
      (["embeddings"],
       some (PyError.typeError "forward() got an unexpected keyword argument input_embeds")) :=
  ⟨by decide, by decide⟩

/-- C2: `SiglipVisionTransformer.forward` re-invokes the embedding layer a
second time with the keyword argument `input_embeds` (line 138), which
`SiglipVisionEmbeddings.forward` does not accept (its only parameter is
`pixel_values`), so that call raises `TypeError` and the final layer
normalization (`post_layernorm`, line 139) is never reached. -/
theorem siglip_vision_transformer_forward_raises_type_error :
    SiglipVisionTransformer.forwardCalls.getD 1 ("", []) = ("embeddings", ["input_embeds"]) ∧
    "input_embeds" ∉ SiglipVisionEmbeddings.forwardParams ∧
    runCallsTrace SiglipVisionTransformer.forwardCalls =
      (["embeddings"],
       some (PyError.typeError "forward() got an unexpected keyword argument input_embeds")) ∧
    "post_layernorm" ∉ (runCallsTrace SiglipVisionTransformer.forwardCalls).1 :=
  ⟨by decide, by decide, by decide, by decide⟩

/-- C3: the name `SiglipAttention` is referenced in
`SiglipEncoderLayer.__init__` (line 102) but never bound anywhere at module
level, so for every config, constructing a `SiglipEncoderLayer` raises a
`NameError` at the `self_attention` assignment. -/
theorem siglip_attention_undefined_encoder_layer_raises :
    "SiglipAttention" ∉ moduleGlobals ∧
    ∀ config : SiglipVisionConfig,
      SiglipEncoderLayer.construct config =
        Except.error (PyError.nameError "SiglipAttention") :=
  ⟨by decide, fun _ => rfl⟩

/-- C4: for every tensor type with `+`, every choice of the sub-layer
functions and every input, `SiglipEncoderLayer.forward` computes exactly:
`layer_norm1`, then self-attention, then a residual add of the original
input, then `layer_norm2`, then the MLP, then a residual add of the
intermediate value, returning the final sum. -/
theorem siglip_encoder_layer_forward_spec :
    ∀ (T : Type) (_inst : Add T) (layer_norm1 layer_norm2 : T → T)
      (self_attention : T → T × Unit) (mlp : T → T) (x : T),
      SiglipEncoderLayer.fwd (T := T) layer_norm1 layer_norm2 self_attention mlp x =
        (x + (self_attention (layer_norm1 x)).1) +
          mlp (layer_norm2 (x + (self_attention (layer_norm1 x)).1)) :=
  fun _ _ _ _ _ _ _ => rfl

/-- C5: `SiglipVisionModel` defines its inference method under the misspelled
name `forwrd` (line 150) and defines no `forward` of its own, so attribute
lookup for `forward` on the class finds nothing (it would fall through to the
`nn.Module` base class) and the body calling `vision_model(pixel_values=...)`
is not reachable through the standard `forward` interface. -/
theorem siglip_vision_model_no_forward_override :
    "forwrd" ∈ SiglipVisionModel.methodNames ∧
    "forward" ∉ SiglipVisionModel.methodNames ∧
    classAttrLookup SiglipVisionModel.methodNames "forward" = none ∧
    classAttrLookup SiglipVisionModel.methodNames "forwrd" = some "forwrd" :=
  ⟨by decide, by decide, by decide, by decide⟩

/-- C6: for every config, the patch-embedding convolution has stride equal to
its kernel size, both equal to `patch_size` (so patches are fixed-size and
non-overlapping), and the learned positional-embedding table has exactly
`(image_size // patch_size) ^ 2` entries. -/
theorem siglip_patch_embedding_nonoverlapping :
    ∀ config : SiglipVisionConfig,
      (SiglipVisionEmbeddings.init config).conv_stride =
          (SiglipVisionEmbeddings.init config).conv_kernel_size ∧
      (SiglipVisionEmbeddings.init config).conv_kernel_size = config.patch_size ∧
      (SiglipVisionEmbeddings.init config).position_embedding_num_embeddings =
          (config.image_size / config.patch_size) ^ 2 :=
  fun _ => ⟨rfl, rfl, rfl⟩

/-- C7: for every config, every learned position table, every convolution,
every input and every in-range patch position `p`, the value of
`SiglipVisionEmbeddings.forward` at batch `b`, position `p`, channel `e` is
the flattened, transposed convolution output at that index plus
`position_embedding(p)` — the added vector depends only on `p`, not on `b`,
so it is the same for every element of the batch. -/
theorem siglip_vision_embeddings_forward_spec :
    ∀ (config : SiglipVisionConfig) (weight : Tensor2) (patchConv : Tensor4 → Tensor4)
      (w : Nat) (pixel_values : Tensor4) (b p e : Nat),
      p < (SiglipVisionEmbeddings.init config).num_positions →
      SiglipVisionEmbeddings.fwd (SiglipVisionEmbeddings.init config) weight patchConv w
          pixel_values b p e =
        patchConv pixel_values b e (p / w) (p % w) + weight p e := by
  intro config weight patchConv w pixel_values b p e hp
  simp only [SiglipVisionEmbeddings.fwd, SiglipVisionEmbeddings.init, addBroadcast0,
    Tensor4.flatten2, Tensor3.transpose12, embedLookup] at *
  simp [List.getD_eq_getElem?_getD, List.getElem?_range hp]

/-- A small concrete config (a 4x4 single-channel image cut into 2x2 patches,
so 4 patch positions) used to instantiate hypotheses at concrete inputs. -/
def cfgSmall : SiglipVisionConfig :=
  { hidden_size := 2
    intermediate_size := 3
    num_hidden_layers := 1
    num_attention_heads := 1
    num_channels := 1
    image_size := 4
    patch_size := 2
    layer_norm_eps := 1 / 1000000
    attention_dropout := 0
    num_image_tokens := none }

/-- A concrete position-embedding table for instantiations. -/
def weightSmall : Tensor2 := fun i e => (i : ℚ) * 10 + (e : ℚ)

/-- A concrete stand-in for the patch convolution for instantiations. -/
def convSmall : Tensor4 → Tensor4 :=
  fun t => fun b e h w => t 0 0 0 0 + (b : ℚ) * 1000 + (e : ℚ) * 100 + (h : ℚ) * 7 + (w : ℚ)

/-- A concrete input image for instantiations. -/
def pixSmall : Tensor4 := fun _ _ _ _ => 1

theorem siglip_vision_embeddings_forward_spec_witness :
    3 < (SiglipVisionEmbeddings.init cfgSmall).num_positions ∧
    SiglipVisionEmbeddings.fwd (SiglipVisionEmbeddings.init cfgSmall) weightSmall convSmall 2
        pixSmall 5 3 1 =
      convSmall pixSmall 5 1 (3 / 2) (3 % 2) + weightSmall 3 1 :=
  ⟨by decide,
   siglip_vision_embeddings_forward_spec cfgSmall weightSmall convSmall 2 pixSmall 5 3 1
     (by decide)⟩

/-- C8: for every config, every tensor type and every choice of the framework
primitives, `SiglipMLP.forward` is exactly `fc2` after `gelu` with
`approximate="tanh"` after `fc1`, with no other transformation, and the two
linear layers map `hidden_size → intermediate_size → hidden_size`. -/
theorem siglip_mlp_forward_spec :
    ∀ (config : SiglipVisionConfig) (T : Type) (fc1 fc2 : T → T)
      (gelu : T → String → T) (x : T),
      SiglipMLP.fwd fc1 fc2 gelu x = fc2 (gelu (fc1 x) "tanh") ∧
      (SiglipMLP.init config).fc1_in_features = config.hidden_size ∧
      (SiglipMLP.init config).fc1_out_features = config.intermediate_size ∧
      (SiglipMLP.init config).fc2_in_features = config.intermediate_size ∧
      (SiglipMLP.init config).fc2_out_features = config.hidden_size :=
  fun _ _ _ _ _ _ => ⟨rfl, rfl, rfl, rfl, rfl⟩

/-- C9: the name `SiglipEncoder` is referenced in
`SiglipVisionTransformer.__init__` (line 132) but never bound anywhere at
module level, so for every config, constructing a `SiglipVisionTransformer`
(or a `SiglipVisionModel`, whose `__init__` constructs one) raises a
`NameError` at the `encoder` assignment. -/
theorem siglip_encoder_undefined_construct_raises :
    "SiglipEncoder" ∉ moduleGlobals ∧
    ∀ config : SiglipVisionConfig,
      SiglipVisionTransformer.construct config =
          Except.error (PyError.nameError "SiglipEncoder") ∧
      SiglipVisionModel.construct config =
          Except.error (PyError.nameError "SiglipEncoder") :=
  ⟨by decide, fun _ => ⟨rfl, rfl⟩⟩

/-- C10: for every config, `SiglipVisionEmbeddings` satisfies
`num_positions = num_patches = (image_size // patch_size) ^ 2`, and its
`position_ids` buffer has shape `(1, num_positions)` and holds exactly the
sequence `0, 1, ..., num_positions - 1`, so every index it feeds to the
position-embedding table is in range. -/
theorem siglip_position_ids_invariant :
    ∀ config : SiglipVisionConfig,
      (SiglipVisionEmbeddings.init config).num_positions =
          (SiglipVisionEmbeddings.init config).num_patches ∧
      (SiglipVisionEmbeddings.init config).num_patches =
          (config.image_size / config.patch_size) ^ 2 ∧
      (SiglipVisionEmbeddings.init config).position_ids.length = 1 ∧
      ((SiglipVisionEmbeddings.init config).position_ids.getD 0 []).length =
          (SiglipVisionEmbeddings.init config).num_positions ∧
      (∀ j, j < (SiglipVisionEmbeddings.init config).num_positions →
        ((SiglipVisionEmbeddings.init config).position_ids.getD 0 []).getD j 0 = j) ∧
      (∀ i, i ∈ (SiglipVisionEmbeddings.init config).position_ids.getD 0 [] →
        i < (SiglipVisionEmbeddings.init config).num_positions) := by
  intro config
  refine ⟨rfl, rfl, rfl, by simp [SiglipVisionEmbeddings.init], ?_, ?_⟩
  · intro j hj
    simp only [SiglipVisionEmbeddings.init] at *
    simp [List.getD_eq_getElem?_getD, List.getElem?_range hj]
  · intro i hi
    simp only [SiglipVisionEmbeddings.init] at *
    exact List.mem_range.mp hi

theorem siglip_position_ids_invariant_witness :
    3 < (SiglipVisionEmbeddings.init SiglipVisionConfig.default).num_positions ∧
    ((SiglipVisionEmbeddings.init SiglipVisionConfig.default).position_ids.getD 0 []).getD 3 0
      = 3 :=
  ⟨by decide,
   (siglip_position_ids_invariant SiglipVisionConfig.default).2.2.2.2.1 3 (by decide)⟩
